import Mathlib

/-!
Verification of the sentence-level numeric density and informativeness engine
(`src/analysis/numerical/sentence_density.py`).

Modelling conventions:
* Python floats are modelled as exact rationals (`ℚ`); the IEEE-754 rounding of
  the source is not modelled.
* The external collaborators that the specification declares out of scope are
  parameters of the embedding:
  - `tok : String → List String` models `tokenize_sentences` (NLTK),
  - `ext : String → ℕ × ℕ` models, per sentence, the pair
    (word-token count from `tokenize_words(·, remove_punct=True)`,
     numeric-token count from `extract_numerical_tokens`),
  - `sq : ℚ → ℚ` models the square root taken inside `np.std`; every theorem
    below is quantified over it, since no verified property depends on its
    value.
* Python dicts are modelled as association lists in insertion order, with
  `List.lookup` for key access.
-/

namespace SentenceDensity

/-- Mean of a list of rationals, modelling `np.mean`; the code only applies it
behind guards that ensure nonemptiness, and the value at `[]` is irrelevant. -/
def mean (l : List ℚ) : ℚ :=
  if l.length = 0 then 0 else l.sum / l.length

/-- Population variance (the square of `np.std`). -/
def popVariance (l : List ℚ) : ℚ :=
  mean (l.map (fun x => (x - mean l) ^ 2))

/-- Maximum of a list, modelling `np.max` on nonempty input. -/
def listMax (l : List ℚ) : ℚ :=
  match l with
  | [] => 0
  | x :: xs => xs.foldl max x

/-- Minimum of a list, modelling `np.min` on nonempty input. -/
def listMin (l : List ℚ) : ℚ :=
  match l with
  | [] => 0
  | x :: xs => xs.foldl min x

/-- Linear-interpolation percentile, modelling `np.percentile(v, q)` with the
default `linear` method: with sorted values `s` of length `n` and
`h = (n-1)·q/100`, the result is `s[⌊h⌋] + (h-⌊h⌋)·(s[⌊h⌋+1] - s[⌊h⌋])`. -/
def percentile (l : List ℚ) (q : ℚ) : ℚ :=
  if l.length = 0 then 0
  else
    let s := List.insertionSort (fun x y => x ≤ y) l
    let h : ℚ := ((l.length - 1 : ℕ) : ℚ) * q / 100
    let lo : ℕ := (Int.floor h).toNat
    let a := s.getD lo 0
    let b := s.getD (lo + 1) a
    a + (h - (lo : ℚ)) * (b - a)

/-- Class constant `DENSE_THRESHOLD = 10.0`. -/
def DENSE_THRESHOLD : ℚ := 10

/-- Class constant `MODERATE_THRESHOLD = 5.0`. -/
def MODERATE_THRESHOLD : ℚ := 5

/-- Class constant `SPARSE_THRESHOLD = 1.0`. -/
def SPARSE_THRESHOLD : ℚ := 1

/-- Class constant `CLUSTER_WINDOW_SIZE = 5`. -/
def CLUSTER_WINDOW_SIZE : ℕ := 5

/-- Class constant `CLUSTER_DENSITY_THRESHOLD = 12.0`. -/
def CLUSTER_DENSITY_THRESHOLD : ℚ := 12

/-- The dataclass `SentenceDensityMetrics`. -/
structure SentenceDensityMetrics where
  total_sentences : ℕ
  numeric_dense_sentences : ℕ
  numeric_moderate_sentences : ℕ
  numeric_sparse_sentences : ℕ
  narrative_sentences : ℕ
  mean_numeric_density : ℚ
  median_numeric_density : ℚ
  std_numeric_density : ℚ
  max_numeric_density : ℚ
  min_numeric_density : ℚ
  p25_density : ℚ
  p75_density : ℚ
  proportion_numeric_dense : ℚ
  proportion_narrative : ℚ
  top_dense_sentences : List (String × ℚ)
  density_by_position : List ℚ
deriving DecidableEq

/-- The dataclass `DistributionPattern`. -/
structure DistributionPattern where
  beginning_density : ℚ
  middle_density : ℚ
  end_density : ℚ
  pattern_type : String
  pattern_confidence : ℚ
  cluster_count : ℕ
  cluster_positions : List (ℕ × ℕ)
  cluster_densities : List ℚ
  question_avg_density : ℚ
  answer_avg_density : ℚ
  qa_density_differential : ℚ
  speaker_densities : List (String × ℚ)
  density_variance_ratio : ℚ
  coefficient_of_variation : ℚ
deriving DecidableEq

/-- The dataclass `InformativenessMetrics`. -/
structure InformativenessMetrics where
  numeric_inclusion_ratio : ℚ
  guidance_numeric_density : ℚ
  results_numeric_density : ℚ
  specificity_weighted_nir : ℚ
  informativeness_score : ℚ
  forecast_relevance_score : ℚ
  quantitative_disclosure_level : String
  transparency_tier : String
  numeric_avoidance_risk : ℚ
  vagueness_penalty : ℚ
  contextualization_score : ℚ
  vs_sp500_informativeness : String
deriving DecidableEq

/-- The dataclass `NumericalScores` from `transparency.py` (the externally
supplied numerical-analysis result consumed by `calculate_informativeness`). -/
structure NumericalScores where
  numeric_transparency_score : ℚ
  numerical_specificity_index : ℚ
  forward_looking_density : ℚ
  backward_looking_density : ℚ
  forward_to_backward_ratio : ℚ
  contextualization_quality_score : ℚ
  total_numerical_tokens : ℕ
  forward_numerical_tokens : ℕ
  backward_numerical_tokens : ℕ
  well_contextualized_count : ℕ
  undercontextualized_count : ℕ
  vs_sp500_benchmark : String
deriving DecidableEq

/-- Method `_calculate_sentence_density`: percentage of a sentence's word tokens
that are numeric tokens, `0.0` for a sentence with no word tokens.  `ext`
supplies the two external token counts (words, numbers). -/
def calculate_sentence_density (ext : String → ℕ × ℕ) (sentence : String) : ℚ :=
  let words := (ext sentence).1
  let numbers := (ext sentence).2
  if words = 0 then 0 else ((numbers : ℚ) / (words : ℚ)) * 100

/-- Method `_empty_sentence_metrics`: the all-zero sentinel record. -/
def empty_sentence_metrics : SentenceDensityMetrics :=
  { total_sentences := 0
    numeric_dense_sentences := 0
    numeric_moderate_sentences := 0
    numeric_sparse_sentences := 0
    narrative_sentences := 0
    mean_numeric_density := 0
    median_numeric_density := 0
    std_numeric_density := 0
    max_numeric_density := 0
    min_numeric_density := 0
    p25_density := 0
    p75_density := 0
    proportion_numeric_dense := 0
    proportion_narrative := 0
    top_dense_sentences := []
    density_by_position := [] }

/-- Method `analyze_sentence_density`: per-sentence densities, four-tier
classification via the `if/elif` chain, aggregate statistics, proportions and
the ten densest sentences. -/
def analyze_sentence_density (sq : ℚ → ℚ) (tok : String → List String)
    (ext : String → ℕ × ℕ) (text : String) : SentenceDensityMetrics :=
  let sentences := tok text
  if sentences = [] then empty_sentence_metrics
  else
    let densities := sentences.map (fun s => (s, calculate_sentence_density ext s))
    let density_values := densities.map (fun p => p.2)
    let dense := density_values.countP (fun d => decide (DENSE_THRESHOLD ≤ d))
    let moderate := density_values.countP
      (fun d => decide (MODERATE_THRESHOLD ≤ d ∧ d < DENSE_THRESHOLD))
    let sparse := density_values.countP
      (fun d => decide (SPARSE_THRESHOLD ≤ d ∧ d < MODERATE_THRESHOLD))
    let narrative := density_values.countP (fun d => decide (d < SPARSE_THRESHOLD))
    let total := sentences.length
    let top_dense := (List.insertionSort (fun p q => q.2 ≤ p.2) densities).take 10
    { total_sentences := total
      numeric_dense_sentences := dense
      numeric_moderate_sentences := moderate
      numeric_sparse_sentences := sparse
      narrative_sentences := narrative
      mean_numeric_density := mean density_values
      median_numeric_density := percentile density_values 50
      std_numeric_density := sq (popVariance density_values)
      max_numeric_density := listMax density_values
      min_numeric_density := listMin density_values
      p25_density := percentile density_values 25
      p75_density := percentile density_values 75
      proportion_numeric_dense := (dense : ℚ) / (total : ℚ)
      proportion_narrative := (narrative : ℚ) / (total : ℚ)
      top_dense_sentences := top_dense
      density_by_position := density_values }

/-- Method `_classify_pattern`: the five-way priority classification of the
density shape, returning `(pattern_type, confidence)`.  `sq` models the square
root inside `np.std`. -/
def classify_pattern (sq : ℚ → ℚ) (beginning middle endv : ℚ)
    (all_densities : List ℚ) : String × ℚ :=
  let significant_diff : ℚ := 3
  let begin_vs_middle := beginning - middle
  let end_vs_middle := endv - middle
  let begin_vs_end := beginning - endv
  let std := sq (popVariance all_densities)
  let m := mean all_densities
  let cv := if 0 < m then std / m else 0
  if cv < 3/10 then ("uniform", 9/10)
  else if significant_diff < begin_vs_middle ∧ significant_diff < begin_vs_end then
    ("front-loaded", min (begin_vs_middle / 10) 1)
  else if significant_diff < end_vs_middle ∧ -begin_vs_middle < end_vs_middle then
    ("back-loaded", min (end_vs_middle / 10) 1)
  else if 7/10 < cv then ("clustered", 8/10)
  else ("scattered", 6/10)

/-- The 5-sentence rolling window `densities[i : i+CLUSTER_WINDOW_SIZE]`. -/
def window (densities : List ℚ) (i : ℕ) : List ℚ :=
  (densities.drop i).take CLUSTER_WINDOW_SIZE

/-- Loop state of `_identify_clusters`: clusters found so far, their densities,
whether a cluster is currently open, and its start index. -/
structure ClusterState where
  clusters : List (ℕ × ℕ)
  cluster_densities : List ℚ
  in_cluster : Bool
  cluster_start : ℕ
deriving DecidableEq

/-- One iteration of the `_identify_clusters` loop at window position `i`. -/
def cluster_step (densities : List ℚ) (st : ClusterState) (i : ℕ) : ClusterState :=
  let window_avg := mean (window densities i)
  if CLUSTER_DENSITY_THRESHOLD ≤ window_avg then
    if st.in_cluster then st
    else { st with in_cluster := true, cluster_start := i }
  else if st.in_cluster then
    let cluster_end := i - 1 + CLUSTER_WINDOW_SIZE
    { clusters := st.clusters ++ [(st.cluster_start, cluster_end)]
      cluster_densities := st.cluster_densities ++
        [mean ((densities.drop st.cluster_start).take (cluster_end - st.cluster_start))]
      in_cluster := false
      cluster_start := st.cluster_start }
  else st

/-- Method `_identify_clusters`: rolling-window cluster detection, returning
`(cluster_positions, cluster_densities)`. -/
def identify_clusters (densities : List ℚ) : List (ℕ × ℕ) × List ℚ :=
  if densities.length < CLUSTER_WINDOW_SIZE then ([], [])
  else
    let st := (List.range (densities.length - CLUSTER_WINDOW_SIZE + 1)).foldl
      (cluster_step densities) ⟨[], [], false, 0⟩
    if st.in_cluster then
      (st.clusters ++ [(st.cluster_start, densities.length - 1)],
       st.cluster_densities ++ [mean (densities.drop st.cluster_start)])
    else (st.clusters, st.cluster_densities)

/-- The Q&A block of `analyze_distribution_patterns` (lines 236-255): guarded by
`sections and 'Q&A' in sections` and by truthiness of the retrieved text;
returns `(question_density, answer_density, qa_differential)`. -/
def qa_analysis (tok : String → List String) (ext : String → ℕ × ℕ)
    (sections : Option (List (String × String))) : ℚ × ℚ × ℚ :=
  match sections with
  | none => (0, 0, 0)
  | some secs =>
    if secs ≠ [] ∧ (secs.lookup "Q&A").isSome then
      let qa_text := (secs.lookup "Q&A").getD ((secs.lookup "Questions and Answers").getD "")
      if qa_text ≠ "" then
        let qa_sentences := tok qa_text
        let questions := qa_sentences.filter (fun s => s.data.contains '?')
        let answers := qa_sentences.filter (fun s => !(s.data.contains '?'))
        let question_density :=
          if questions ≠ [] then mean (questions.map (calculate_sentence_density ext)) else 0
        let answer_density :=
          if answers ≠ [] then mean (answers.map (calculate_sentence_density ext)) else 0
        (question_density, answer_density, answer_density - question_density)
      else (0, 0, 0)
    else (0, 0, 0)

/-- The speaker block of `analyze_distribution_patterns` (lines 257-264):
per-speaker mean sentence density, skipping speakers whose text yields no
sentences. -/
def speaker_analysis (tok : String → List String) (ext : String → ℕ × ℕ)
    (speakers : Option (List (String × String))) : List (String × ℚ) :=
  match speakers with
  | none => []
  | some sp =>
    sp.filterMap (fun p =>
      let speaker_sentences := tok p.2
      if speaker_sentences ≠ [] then
        some (p.1, mean (speaker_sentences.map (calculate_sentence_density ext)))
      else none)

/-- Truncation toward zero, modelling Python `int()` on a float. -/
def int_trunc (x : ℚ) : ℤ :=
  if x < 0 then -Int.floor (-x) else Int.floor x

/-- Method `analyze_distribution_patterns`: positional split, pattern
classification, cluster detection, Q&A differential, speaker densities and
variance analysis. -/
def analyze_distribution_patterns (sq : ℚ → ℚ) (tok : String → List String)
    (ext : String → ℕ × ℕ) (sentence_metrics : SentenceDensityMetrics)
    (sections : Option (List (String × String)))
    (speakers : Option (List (String × String))) : DistributionPattern :=
  let densities := sentence_metrics.density_by_position
  let total := densities.length
  let beginning_idx : ℕ := (int_trunc ((total : ℚ) * (2/10))).toNat
  let end_idx : ℕ := (int_trunc ((total : ℚ) * (8/10))).toNat
  let beginning_density := if 0 < beginning_idx then mean (densities.take beginning_idx) else 0
  let middle_density :=
    if beginning_idx < end_idx then
      mean ((densities.drop beginning_idx).take (end_idx - beginning_idx))
    else 0
  let end_density := if end_idx < total then mean (densities.drop end_idx) else 0
  let pc := classify_pattern sq beginning_density middle_density end_density densities
  let cl := identify_clusters densities
  let qa := qa_analysis tok ext sections
  let speaker_densities := speaker_analysis tok ext speakers
  let mean_density := sentence_metrics.mean_numeric_density
  let std_density := sentence_metrics.std_numeric_density
  let variance_ratio := if 0 < mean_density then std_density / mean_density else 0
  let cv := if 0 < mean_density then std_density / mean_density else 0
  { beginning_density := beginning_density
    middle_density := middle_density
    end_density := end_density
    pattern_type := pc.1
    pattern_confidence := pc.2
    cluster_count := cl.1.length
    cluster_positions := cl.1
    cluster_densities := cl.2
    question_avg_density := qa.1
    answer_avg_density := qa.2.1
    qa_density_differential := qa.2.2
    speaker_densities := speaker_densities
    density_variance_ratio := variance_ratio
    coefficient_of_variation := cv }

/-- Method `_classify_transparency_tier`. -/
def classify_transparency_tier (score : ℚ) : String :=
  if 70 ≤ score then "top_quartile"
  else if 55 ≤ score then "above_average"
  else if 40 ≤ score then "average"
  else if 25 ≤ score then "below_average"
  else "bottom_quartile"

/-- Method `calculate_informativeness`: composite informativeness, forecast
relevance, categorical tiers, risk signals and benchmark label. -/
def calculate_informativeness (sentence_metrics : SentenceDensityMetrics)
    (numerical_scores : NumericalScores) (distribution : DistributionPattern) :
    InformativenessMetrics :=
  let numeric_sentences := sentence_metrics.numeric_dense_sentences +
    sentence_metrics.numeric_moderate_sentences + sentence_metrics.numeric_sparse_sentences
  let numeric_inclusion_ratio :=
    if 0 < sentence_metrics.total_sentences then
      (numeric_sentences : ℚ) / (sentence_metrics.total_sentences : ℚ)
    else 0
  let guidance_density := numerical_scores.forward_looking_density
  let results_density := numerical_scores.backward_looking_density
  let specificity_index := numerical_scores.numerical_specificity_index
  let specificity_weighted_nir := numeric_inclusion_ratio * (specificity_index / 2)
  let density_component := min (sentence_metrics.mean_numeric_density / 10) 1 * 30
  let specificity_component := (specificity_index / 2) * 25
  let guidance_component := min (guidance_density / 5) 1 * 25
  let context_component := numerical_scores.contextualization_quality_score * 20
  let informativeness_score :=
    density_component + specificity_component + guidance_component + context_component
  let forecast_relevance_score :=
    guidance_density * 40 + (numerical_scores.forward_to_backward_ratio / 3) * 20 +
      specificity_component + context_component
  let forecast_relevance_score := min forecast_relevance_score 100
  let quantitative_level :=
    if 75 ≤ informativeness_score then "very_high"
    else if 60 ≤ informativeness_score then "high"
    else if 40 ≤ informativeness_score then "medium"
    else if 25 ≤ informativeness_score then "low"
    else "very_low"
  let transparency_tier := classify_transparency_tier informativeness_score
  let numeric_avoidance_risk := max 0 ((35/10 - sentence_metrics.mean_numeric_density) * 20)
  let numeric_avoidance_risk := min numeric_avoidance_risk 100
  let vagueness_penalty := max 0 (1 - specificity_index / 2) * 50
  let context_score := numerical_scores.contextualization_quality_score
  let vs_sp500 :=
    if 50 < informativeness_score then "above"
    else if 45 ≤ informativeness_score then "at"
    else "below"
  { numeric_inclusion_ratio := numeric_inclusion_ratio
    guidance_numeric_density := guidance_density
    results_numeric_density := results_density
    specificity_weighted_nir := specificity_weighted_nir
    informativeness_score := informativeness_score
    forecast_relevance_score := forecast_relevance_score
    quantitative_disclosure_level := quantitative_level
    transparency_tier := transparency_tier
    numeric_avoidance_risk := numeric_avoidance_risk
    vagueness_penalty := vagueness_penalty
    contextualization_score := context_score
    vs_sp500_informativeness := vs_sp500 }

/-- Rounding to the nearest integer with ties to even, modelling the rounding
used by Python fixed-point float formatting. -/
def round_half_even (x : ℚ) : ℤ :=
  let f := Int.floor x
  let r := x - f
  if r < 1/2 then f
  else if 1/2 < r then f + 1
  else if f % 2 = 0 then f else f + 1

/-- Fixed one-decimal formatting, modelling Python `f"{x:.1f}"` (the negative-
zero display of IEEE floats is not modelled). -/
def fmt1 (x : ℚ) : String :=
  let n := round_half_even (x * 10)
  let sgn := if n < 0 then "-" else ""
  sgn ++ toString (n.natAbs / 10) ++ "." ++ toString (n.natAbs % 10)

/-- Percentage formatting, modelling Python `f"{x:.1%}"`. -/
def fmt_pct1 (x : ℚ) : String := fmt1 (x * 100) ++ "%"

/-- Signed one-decimal formatting, modelling Python `f"{x:+.1f}"`. -/
def fmt_signed1 (x : ℚ) : String :=
  if round_half_even (x * 10) < 0 then fmt1 x else "+" ++ fmt1 x

/-- String of `n` copies of a character, modelling Python `c * n`. -/
def repeat_char (c : Char) (n : ℕ) : String := String.mk (List.replicate n c)

/-- Left-justified padding to width `w`, modelling Python `f"{s:30}"`. -/
def pad_right (s : String) (w : ℕ) : String :=
  s ++ repeat_char ' ' (w - s.length)

/-- Method `_density_bar`: fixed-width ASCII bar against a 20% density
ceiling. -/
def density_bar (density : ℚ) (max_width : ℕ) : String :=
  let max_density : ℚ := 20
  let width : ℤ := int_trunc ((density / max_density) * (max_width : ℚ))
  let width : ℤ := min width (max_width : ℤ)
  let bar := repeat_char '█' width.toNat
  let emp := repeat_char '░' ((max_width : ℤ) - width).toNat
  "[" ++ bar ++ emp ++ "]"

/-- Method `generate_ascii_heatmap`: the multi-line ASCII summary of a
`DistributionPattern` (the `sentence_metrics` argument is unused, as in the
source). -/
def generate_ascii_heatmap (distribution : DistributionPattern)
    (sentence_metrics : SentenceDensityMetrics) : String :=
  let base : List String :=
    [repeat_char '=' 60,
     "NUMERIC DENSITY DISTRIBUTION HEATMAP",
     repeat_char '=' 60,
     "",
     "Pattern Type: " ++ distribution.pattern_type.toUpper ++
       " (confidence: " ++ fmt_pct1 distribution.pattern_confidence ++ ")",
     "",
     "Distribution by Position:",
     "  Beginning (first 20%):  " ++ density_bar distribution.beginning_density 50 ++
       " " ++ fmt1 distribution.beginning_density ++ "%",
     "  Middle (60%):          " ++ density_bar distribution.middle_density 50 ++
       " " ++ fmt1 distribution.middle_density ++ "%",
     "  End (last 20%):        " ++ density_bar distribution.end_density 50 ++
       " " ++ fmt1 distribution.end_density ++ "%",
     ""]
  let cluster_block : List String :=
    if 0 < distribution.cluster_count then
      ["High-Density Clusters: " ++ toString distribution.cluster_count] ++
      ((distribution.cluster_positions.take 5).enum.map (fun p =>
        let i := p.1 + 1
        let density := distribution.cluster_densities.getD p.1 0
        "  Cluster " ++ toString i ++ ": Sentences " ++ toString p.2.1 ++ "-" ++
          toString p.2.2 ++ " (avg density: " ++ fmt1 density ++ "%)")) ++
      (if 5 < distribution.cluster_count then
        ["  ... and " ++ toString (distribution.cluster_count - 5) ++ " more clusters"]
      else []) ++ [""]
    else []
  let qa_block : List String :=
    if distribution.qa_density_differential ≠ 0 then
      ["Q&A Analysis:",
       "  Questions: " ++ fmt1 distribution.question_avg_density ++ "%",
       "  Answers:   " ++ fmt1 distribution.answer_avg_density ++ "%",
       "  Differential: " ++ fmt_signed1 distribution.qa_density_differential ++ "% " ++
         (if 0 < distribution.qa_density_differential then "(answers more numeric)"
          else "(questions more numeric)"),
       ""]
    else []
  let speaker_block : List String :=
    if distribution.speaker_densities ≠ [] then
      ["Density by Speaker:"] ++
      (((List.insertionSort (fun p q => q.2 ≤ p.2) distribution.speaker_densities).take 5).map
        (fun p => "  " ++ pad_right p.1 30 ++ " " ++ density_bar p.2 30 ++ " " ++
          fmt1 p.2 ++ "%")) ++ [""]
    else []
  String.intercalate "\n" (base ++ cluster_block ++ qa_block ++ speaker_block ++
    [repeat_char '=' 60])

/-- The class `SentenceLevelDensityAnalyzer`: its `__init__` stores nothing, so
an instance carries no fields at all; the class-level thresholds are the fixed
constants above. -/
structure SentenceLevelDensityAnalyzer where
  mk ::
deriving DecidableEq

/-- The full pipeline on one document: density metrics, distribution pattern,
informativeness and heatmap, in the documented call order. -/
def run_pipeline (sq : ℚ → ℚ) (tok : String → List String) (ext : String → ℕ × ℕ)
    (text : String) (sections speakers : Option (List (String × String)))
    (numerical_scores : NumericalScores) :
    SentenceDensityMetrics × DistributionPattern × InformativenessMetrics × String :=
  let m := analyze_sentence_density sq tok ext text
  let d := analyze_distribution_patterns sq tok ext m sections speakers
  let i := calculate_informativeness m numerical_scores d
  let h := generate_ascii_heatmap d m
  (m, d, i, h)

/-- The pipeline as a method of an analyzer instance, returning the instance
Python leaves behind alongside the outputs.  No statement of any method body
assigns to `self` or to class state, so the returned instance is the receiver
itself. -/
def run_pipelineM (self : SentenceLevelDensityAnalyzer) (sq : ℚ → ℚ)
    (tok : String → List String) (ext : String → ℕ × ℕ) (text : String)
    (sections speakers : Option (List (String × String)))
    (numerical_scores : NumericalScores) :
    SentenceLevelDensityAnalyzer ×
      (SentenceDensityMetrics × DistributionPattern × InformativenessMetrics × String) :=
  (self, run_pipeline sq tok ext text sections speakers numerical_scores)

/-- A window position is "hot" when its rolling mean meets the cluster
threshold (`window_avg >= CLUSTER_DENSITY_THRESHOLD`). -/
def Hot (densities : List ℚ) (i : ℕ) : Prop :=
  CLUSTER_DENSITY_THRESHOLD ≤ mean (window densities i)

/-- Number of window positions scanned by `_identify_clusters`:
`len(densities) - window_size + 1`. -/
def num_windows (densities : List ℚ) : ℕ :=
  densities.length - CLUSTER_WINDOW_SIZE + 1

/-- Index `s` starts a maximal run of hot windows. -/
def FirstOfRun (densities : List ℚ) (s : ℕ) : Prop :=
  Hot densities s ∧ (s = 0 ∨ ¬ Hot densities (s - 1))

/-- What a returned cluster `(s, e)` actually spans: `s` is the first window of
a maximal hot run; either the run reaches the last scanned window and
`e` is the final sentence index, or `e = i - 1 + CLUSTER_WINDOW_SIZE` for the
first non-hot window `i` after the run — one index past the last hot window's
end. -/
def ClusterSpanSpec (densities : List ℚ) (s e : ℕ) : Prop :=
  FirstOfRun densities s ∧
  ((e = densities.length - 1 ∧ ∀ j, s ≤ j → j < num_windows densities → Hot densities j) ∨
   (∃ i, s < i ∧ i < num_windows densities ∧ ¬ Hot densities i ∧
     (∀ j, s ≤ j → j < i → Hot densities j) ∧ e = i - 1 + CLUSTER_WINDOW_SIZE))

/-- A cluster closed before window position `k`. -/
def ClosedSpec (densities : List ℚ) (k : ℕ) (s e : ℕ) : Prop :=
  FirstOfRun densities s ∧
  ∃ i, s < i ∧ i < k ∧ ¬ Hot densities i ∧
    (∀ j, s ≤ j → j < i → Hot densities j) ∧ e = i - 1 + CLUSTER_WINDOW_SIZE

/-- Loop invariant of `_identify_clusters` after scanning window positions
`0, …, k-1`: an open cluster started at the first window of a hot run that
reaches position `k`; when no cluster is open the previous window was not hot;
every recorded cluster satisfies `ClosedSpec`; recorded clusters have strictly
increasing starts and bounded overlap; and every recorded cluster lies strictly
before an open cluster's start. -/
structure StInv (densities : List ℚ) (k : ℕ) (st : ClusterState) : Prop where
  open_inv : st.in_cluster = true →
    st.cluster_start < k ∧ FirstOfRun densities st.cluster_start ∧
    ∀ j, st.cluster_start ≤ j → j < k → Hot densities j
  closed_inv : st.in_cluster = false → k = 0 ∨ ¬ Hot densities (k - 1)
  clusters_spec : ∀ p ∈ st.clusters, ClosedSpec densities k p.1 p.2
  clusters_sorted : List.Pairwise
    (fun c1 c2 => c1.1 < c2.1 ∧ c1.2 < c2.1 + CLUSTER_WINDOW_SIZE) st.clusters
  clusters_before : st.in_cluster = true →
    ∀ p ∈ st.clusters, p.1 < st.cluster_start ∧ p.2 < st.cluster_start + CLUSTER_WINDOW_SIZE

/-- Inclusive index ranges with no common index (the disjointness the claim
asserts of `cluster_positions`). -/
def ranges_disjoint (c1 c2 : ℕ × ℕ) : Prop :=
  c1.2 < c2.1 ∨ c2.2 < c1.1

/-- Modelled from the claim's words for C4: the Q&A differential that
`analyze_distribution_patterns` is claimed to compute from the
`"Questions and Answers"` section — mean answer density minus mean question
density, `0.0` when the section or either subset is empty. -/
def qa_differential_per_claim (tok : String → List String) (ext : String → ℕ × ℕ)
    (secs : List (String × String)) : ℚ :=
  let txt := (secs.lookup "Questions and Answers").getD ""
  let qa_sentences := tok txt
  let questions := qa_sentences.filter (fun s => s.data.contains '?')
  let answers := qa_sentences.filter (fun s => !(s.data.contains '?'))
  if txt = "" ∨ questions = [] ∨ answers = [] then 0
  else mean (answers.map (calculate_sentence_density ext)) -
    mean (questions.map (calculate_sentence_density ext))

/-- Fixture: an all-zero `DistributionPattern` (the `distribution` argument of
`calculate_informativeness` is never read, so its content is irrelevant). -/
def zero_distribution : DistributionPattern :=
  { beginning_density := 0, middle_density := 0, end_density := 0
    pattern_type := "uniform", pattern_confidence := 0
    cluster_count := 0, cluster_positions := [], cluster_densities := []
    question_avg_density := 0, answer_avg_density := 0, qa_density_differential := 0
    speaker_densities := [], density_variance_ratio := 0, coefficient_of_variation := 0 }

/-- Fixture for C3: external scores with specificity index at its 0.3 floor and
every other score zero. -/
def low_specificity_scores : NumericalScores :=
  { numeric_transparency_score := 0, numerical_specificity_index := 3/10
    forward_looking_density := 0, backward_looking_density := 0
    forward_to_backward_ratio := 0, contextualization_quality_score := 0
    total_numerical_tokens := 0, forward_numerical_tokens := 0
    backward_numerical_tokens := 0, well_contextualized_count := 0
    undercontextualized_count := 0, vs_sp500_benchmark := "" }

/-- Fixture for C7: a malformed external score record whose
forward-to-backward ratio is negative. -/
def negative_ratio_scores : NumericalScores :=
  { numeric_transparency_score := 0, numerical_specificity_index := 0
    forward_looking_density := 0, backward_looking_density := 0
    forward_to_backward_ratio := -3, contextualization_quality_score := 0
    total_numerical_tokens := 0, forward_numerical_tokens := 0
    backward_numerical_tokens := 0, well_contextualized_count := 0
    undercontextualized_count := 0, vs_sp500_benchmark := "" }

/-- Fixture for C4: a Q&A section text with one question and one answer. -/
def qa_text_fixture : String := "Why did revenue grow? Revenue grew 5 percent."

/-- Fixture for C4: a sections mapping that uses only the fallback key
`"Questions and Answers"`. -/
def qa_sections_fixture : List (String × String) :=
  [("Questions and Answers", qa_text_fixture)]

/-- Fixture for C4: sentence segmentation of the Q&A text into its question and
its answer. -/
def qa_tok_fixture : String → List String := fun t =>
  if t = qa_text_fixture then ["Why did revenue grow?", "Revenue grew 5 percent."] else []

/-- Fixture for C4: token counts — the answer has 4 word tokens of which 1 is
numeric, the question has 4 word tokens and none numeric. -/
def qa_ext_fixture : String → ℕ × ℕ := fun s =>
  if s = "Revenue grew 5 percent." then (4, 1) else (4, 0)

/-- Fixture for C5: the external token counts on the sentence `"5.5 5.5 a"`:
NLTK `word_tokenize` yields `['5.5', '5.5', 'a']`, the `isalnum()` filter of
`tokenize_words(·, remove_punct=True)` keeps only `'a'` (1 word token), while
the `extract_numerical_tokens` regex matches `'5.5'` twice (2 numeric
tokens). -/
def overfull_ext_fixture : String → ℕ × ℕ := fun s =>
  if s = "5.5 5.5 a" then (1, 2) else (0, 0)

/-- Fixture: a square-root stand-in for scenarios whose verified values do not
depend on it. -/
def zero_sqrt : ℚ → ℚ := fun _ => 0

instance (c1 c2 : ℕ × ℕ) : Decidable (ranges_disjoint c1 c2) :=
  inferInstanceAs (Decidable (c1.2 < c2.1 ∨ c2.2 < c1.1))

instance (densities : List ℚ) (i : ℕ) : Decidable (Hot densities i) :=
  inferInstanceAs (Decidable (CLUSTER_DENSITY_THRESHOLD ≤ mean (window densities i)))

theorem informativeness_score_eq (M : SentenceDensityMetrics) (S : NumericalScores)
    (D : DistributionPattern) :
    (calculate_informativeness M S D).informativeness_score =
      min (M.mean_numeric_density / 10) 1 * 30 + (S.numerical_specificity_index / 2) * 25 +
        min (S.forward_looking_density / 5) 1 * 25 +
        S.contextualization_quality_score * 20 := rfl

theorem forecast_score_eq (M : SentenceDensityMetrics) (S : NumericalScores)
    (D : DistributionPattern) :
    (calculate_informativeness M S D).forecast_relevance_score =
      min (S.forward_looking_density * 40 + (S.forward_to_backward_ratio / 3) * 20 +
        (S.numerical_specificity_index / 2) * 25 +
        S.contextualization_quality_score * 20) 100 := rfl

theorem avoidance_risk_eq (M : SentenceDensityMetrics) (S : NumericalScores)
    (D : DistributionPattern) :
    (calculate_informativeness M S D).numeric_avoidance_risk =
      min (max 0 ((35/10 - M.mean_numeric_density) * 20)) 100 := rfl

theorem disclosure_level_eq (M : SentenceDensityMetrics) (S : NumericalScores)
    (D : DistributionPattern) :
    (calculate_informativeness M S D).quantitative_disclosure_level =
      (if 75 ≤ (calculate_informativeness M S D).informativeness_score then "very_high"
       else if 60 ≤ (calculate_informativeness M S D).informativeness_score then "high"
       else if 40 ≤ (calculate_informativeness M S D).informativeness_score then "medium"
       else if 25 ≤ (calculate_informativeness M S D).informativeness_score then "low"
       else "very_low") := rfl

theorem cluster_closed_mono {densities : List ℚ} {k k' s e : ℕ}
    (h : ClosedSpec densities k s e) (hk : k ≤ k') : ClosedSpec densities k' s e := by
  obtain ⟨hf, i, h1, h2, h3, h4, h5⟩ := h
  exact ⟨hf, i, h1, lt_of_lt_of_le h2 hk, h3, h4, h5⟩

theorem cluster_stinv_zero (densities : List ℚ) :
    StInv densities 0 ⟨[], [], false, 0⟩ := by
  refine StInv.mk ?_ ?_ ?_ ?_ ?_
  · intro hf
    exact Bool.noConfusion hf
  · intro _
    exact Or.inl rfl
  · intro p hp
    exact absurd hp (List.not_mem_nil p)
  · exact List.Pairwise.nil
  · intro hf
    exact Bool.noConfusion hf

theorem cluster_stinv_step (densities : List ℚ) (k : ℕ) (st : ClusterState)
    (h : StInv densities k st) : StInv densities (k + 1) (cluster_step densities st k) := by
  unfold cluster_step
  dsimp only
  split_ifs with hhot hin hin
  · -- hot window, cluster already open: state unchanged
    refine StInv.mk ?_ ?_
      (fun p hp => cluster_closed_mono (h.clusters_spec p hp) (Nat.le_succ k))
      h.clusters_sorted h.clusters_before
    · intro _
      obtain ⟨hlt, hfirst, hrun⟩ := h.open_inv hin
      refine ⟨Nat.lt_succ_of_lt hlt, hfirst, fun j hj1 hj2 => ?_⟩
      rcases Nat.lt_succ_iff_lt_or_eq.mp hj2 with hj | hj
      · exact hrun j hj1 hj
      · subst hj
        exact hhot
    · intro hf
      rw [hin] at hf
      exact Bool.noConfusion hf
  · -- hot window, no open cluster: a cluster starts at k
    have hfalse : st.in_cluster = false := by
      rw [Bool.not_eq_true] at hin
      exact hin
    refine StInv.mk ?_ (fun hf => ?_)
      (fun p hp => cluster_closed_mono (h.clusters_spec p hp) (Nat.le_succ k))
      h.clusters_sorted ?_
    · intro _
      dsimp only
      refine ⟨Nat.lt_succ_self k, ⟨hhot, h.closed_inv hfalse⟩, fun j hj1 hj2 => ?_⟩
      have hj : j = k := by omega
      subst hj
      exact hhot
    · exact Bool.noConfusion hf
    · intro _ p hp
      dsimp only at hp ⊢
      obtain ⟨hf2, i, hsi, hik, hnh, hrun, he⟩ := h.clusters_spec p hp
      constructor
      · omega
      · omega
  · -- non-hot window, open cluster: the cluster closes at k - 1 + window size
    refine StInv.mk ?_ ?_ ?_ ?_ ?_
    · intro hf
      exact Bool.noConfusion hf
    · intro _
      exact Or.inr hhot
    · intro p hp
      dsimp only at hp
      rcases List.mem_append.mp hp with hp | hp
      · exact cluster_closed_mono (h.clusters_spec p hp) (Nat.le_succ k)
      · have hp' : p = (st.cluster_start, k - 1 + CLUSTER_WINDOW_SIZE) := by
          simpa using hp
        subst hp'
        obtain ⟨hlt, hfirst, hrun⟩ := h.open_inv hin
        exact ⟨hfirst, k, hlt, Nat.lt_succ_self k, hhot, hrun, rfl⟩
    · dsimp only
      refine List.pairwise_append.mpr ⟨h.clusters_sorted, List.pairwise_singleton _ _, ?_⟩
      intro a ha b hb
      have hb' : b = (st.cluster_start, k - 1 + CLUSTER_WINDOW_SIZE) := by
        simpa using hb
      subst hb'
      obtain ⟨ha1, ha2⟩ := h.clusters_before hin a ha
      exact ⟨ha1, ha2⟩
    · intro hf
      exact Bool.noConfusion hf
  · -- non-hot window, no open cluster: state unchanged
    refine StInv.mk ?_ ?_ ?_ h.clusters_sorted ?_
    · intro hf
      exact absurd hf hin
    · intro _
      exact Or.inr hhot
    · intro p hp
      exact cluster_closed_mono (h.clusters_spec p hp) (Nat.le_succ k)
    · intro hf
      exact absurd hf hin

theorem cluster_stinv_fold (densities : List ℚ) (k : ℕ) :
    StInv densities k ((List.range k).foldl (cluster_step densities) ⟨[], [], false, 0⟩) := by
  induction k with
  | zero => simpa using cluster_stinv_zero densities
  | succ n ih =>
    rw [List.range_succ, List.foldl_append, List.foldl_cons, List.foldl_nil]
    exact cluster_stinv_step densities n _ ih

theorem cluster_span_of_closed {densities : List ℚ} {s e : ℕ}
    (h : ClosedSpec densities (num_windows densities) s e) :
    ClusterSpanSpec densities s e := by
  obtain ⟨hf, i, h1, h2, h3, h4, h5⟩ := h
  exact ⟨hf, Or.inr ⟨i, h1, h2, h3, h4, h5⟩⟩

theorem qa_differential_eq (sq : ℚ → ℚ) (tok : String → List String)
    (ext : String → ℕ × ℕ) (m : SentenceDensityMetrics)
    (sections speakers : Option (List (String × String))) :
    (analyze_distribution_patterns sq tok ext m sections speakers).qa_density_differential =
      (qa_analysis tok ext sections).2.2 := rfl

theorem qa_question_eq (sq : ℚ → ℚ) (tok : String → List String)
    (ext : String → ℕ × ℕ) (m : SentenceDensityMetrics)
    (sections speakers : Option (List (String × String))) :
    (analyze_distribution_patterns sq tok ext m sections speakers).question_avg_density =
      (qa_analysis tok ext sections).1 := rfl

theorem qa_answer_eq (sq : ℚ → ℚ) (tok : String → List String)
    (ext : String → ℕ × ℕ) (m : SentenceDensityMetrics)
    (sections speakers : Option (List (String × String))) :
    (analyze_distribution_patterns sq tok ext m sections speakers).answer_avg_density =
      (qa_analysis tok ext sections).2.1 := rfl

/-- C1. The claim asserts the synthetic run `[0,15,15,15,15,15,0]` yields one
cluster over exactly the 5 run indices with density 15.0, and that a merged
cluster ends at the last hot window's end index.  In fact the two bordering
windows average exactly 12.0 and are hot, so the single cluster is `(0, 6)`
with reported density `75/7 ≈ 10.71`, not `(1, 5)` with `15.0`. -/
theorem claim_C1_counterexample :
    identify_clusters [0, 15, 15, 15, 15, 15, 0] = ([(0, 6)], [75/7]) ∧
    identify_clusters [0, 15, 15, 15, 15, 15, 0] ≠ ([(1, 5)], [15]) := by
  have h : identify_clusters [0, 15, 15, 15, 15, 15, 0] = ([(0, 6)], [75/7]) := by
    norm_num [identify_clusters, CLUSTER_WINDOW_SIZE, CLUSTER_DENSITY_THRESHOLD,
      List.range_succ, cluster_step, window, mean]
  refine ⟨h, ?_⟩
  rw [h]
  intro e
  simp only [Prod.mk.injEq, List.cons.injEq] at e
  exact absurd e.1.1.1 (by norm_num)

/-- C1 (amended): the synthetic density run `[0,15,15,15,15,15,0]` yields
exactly one cluster, spanning `(0, 6)` with reported density `75/7` (the
bordering windows average exactly the 12.0 threshold); in general every
returned cluster starts at the first window of a maximal hot run and either
closes at the final sentence index when the run reaches the last window, or
ends at `i - 1 + window_size` for the first non-hot window `i` after the run —
one index past the last hot window's end. -/
theorem claim_C1 :
    identify_clusters [0, 15, 15, 15, 15, 15, 0] = ([(0, 6)], [75/7]) ∧
    ∀ (densities : List ℚ), ∀ p ∈ (identify_clusters densities).1,
      ClusterSpanSpec densities p.1 p.2 := by
  constructor
  · norm_num [identify_clusters, CLUSTER_WINDOW_SIZE, CLUSTER_DENSITY_THRESHOLD,
      List.range_succ, cluster_step, window, mean]
  · intro densities p hp
    unfold identify_clusters at hp
    by_cases hlen : densities.length < CLUSTER_WINDOW_SIZE
    · rw [if_pos hlen] at hp
      exact absurd hp (List.not_mem_nil p)
    · rw [if_neg hlen] at hp
      dsimp only at hp
      have hinv := cluster_stinv_fold densities
        (densities.length - CLUSTER_WINDOW_SIZE + 1)
      set st := (List.range (densities.length - CLUSTER_WINDOW_SIZE + 1)).foldl
        (cluster_step densities) (⟨[], [], false, 0⟩ : ClusterState) with hst
      cases hb : st.in_cluster
      · rw [hb] at hp
        simp only [Bool.false_eq_true, if_false] at hp
        exact cluster_span_of_closed (hinv.clusters_spec p hp)
      · rw [hb] at hp
        simp only [if_true] at hp
        rcases List.mem_append.mp hp with hp' | hp'
        · exact cluster_span_of_closed (hinv.clusters_spec p hp')
        · have hp2 : p = (st.cluster_start, densities.length - 1) := by
            simpa using hp'
          subst hp2
          obtain ⟨hlt, hfirst, hrun⟩ := hinv.open_inv hb
          exact ⟨hfirst, Or.inl ⟨rfl, fun j hj1 hj2 => hrun j hj1 hj2⟩⟩

/-- C1 witness: the span specification holds of the cluster returned on the
synthetic input. -/
theorem claim_C1_witness :
    ClusterSpanSpec [0, 15, 15, 15, 15, 15, 0] 0 6 := by
  have h := claim_C1
  exact h.2 [0, 15, 15, 15, 15, 15, 0] (0, 6) (by rw [h.1]; simp)

/-- C2. The claim asserts cluster ranges are pairwise non-overlapping; on
`[100,0,0,0,0,0,100,100,100,100]` the code returns `[(0,5), (2,9)]`, whose
ranges share indices 2–5 (they intersect under the half-open reading as
well). -/
theorem claim_C2_counterexample :
    (identify_clusters [100, 0, 0, 0, 0, 0, 100, 100, 100, 100]).1 = [(0, 5), (2, 9)] ∧
    ¬ List.Pairwise ranges_disjoint
      (identify_clusters [100, 0, 0, 0, 0, 0, 100, 100, 100, 100]).1 := by
  have h : (identify_clusters [100, 0, 0, 0, 0, 0, 100, 100, 100, 100]).1 =
      [(0, 5), (2, 9)] := by
    norm_num [identify_clusters, CLUSTER_WINDOW_SIZE, CLUSTER_DENSITY_THRESHOLD,
      List.range_succ, cluster_step, window, mean]
  refine ⟨h, ?_⟩
  rw [h]
  intro hpw
  have hd := (List.pairwise_cons.mp hpw).1 (2, 9) (by simp)
  rcases hd with h' | h' <;> simp [ranges_disjoint] at h'

/-- C2 (amended): the cluster ranges returned by `_identify_clusters` are
ordered by strictly increasing start index and contained in
`[0, total_sentences)` with start ≤ end, and a later cluster begins after
(earlier end − window size); but consecutive ranges may overlap by up to
`window_size − 1` indices, so pairwise disjointness fails. -/
theorem claim_C2 : ∀ (densities : List ℚ),
    List.Pairwise (fun c1 c2 => c1.1 < c2.1 ∧ c1.2 < c2.1 + CLUSTER_WINDOW_SIZE)
      (identify_clusters densities).1 ∧
    ∀ p ∈ (identify_clusters densities).1, p.1 ≤ p.2 ∧ p.2 < densities.length := by
  intro densities
  unfold identify_clusters
  by_cases hlen : densities.length < CLUSTER_WINDOW_SIZE
  · rw [if_pos hlen]
    exact ⟨List.Pairwise.nil, fun p hp => absurd hp (List.not_mem_nil p)⟩
  · rw [if_neg hlen]
    dsimp only
    have hW : CLUSTER_WINDOW_SIZE = 5 := rfl
    have hlen5 : 5 ≤ densities.length := by omega
    have hinv := cluster_stinv_fold densities
      (densities.length - CLUSTER_WINDOW_SIZE + 1)
    set st := (List.range (densities.length - CLUSTER_WINDOW_SIZE + 1)).foldl
      (cluster_step densities) (⟨[], [], false, 0⟩ : ClusterState) with hst
    cases hb : st.in_cluster
    · simp only [Bool.false_eq_true, if_false]
      refine ⟨hinv.clusters_sorted, fun p hp => ?_⟩
      obtain ⟨hfst, i, h1, h2, h3, h4, h5⟩ := hinv.clusters_spec p hp
      rw [hW] at h2 h5
      constructor
      · omega
      · omega
    · simp only [if_true]
      constructor
      · refine List.pairwise_append.mpr
          ⟨hinv.clusters_sorted, List.pairwise_singleton _ _, ?_⟩
        intro a ha b hb'
        have hb2 : b = (st.cluster_start, densities.length - 1) := by simpa using hb'
        subst hb2
        exact hinv.clusters_before hb a ha
      · intro p hp
        rcases List.mem_append.mp hp with hp' | hp'
        · obtain ⟨hfst, i, h1, h2, h3, h4, h5⟩ := hinv.clusters_spec p hp'
          rw [hW] at h2 h5
          constructor
          · omega
          · omega
        · have hp2 : p = (st.cluster_start, densities.length - 1) := by simpa using hp'
          subst hp2
          obtain ⟨hlt, hfirst, hrun⟩ := hinv.open_inv hb
          rw [hW] at hlt
          constructor
          · dsimp only
            omega
          · dsimp only
            omega

/-- C2 witness: containment applied to the cluster returned on the synthetic
run input. -/
theorem claim_C2_witness :
    (0, 6).1 ≤ (0, 6).2 ∧ (0, 6).2 < ([0, 15, 15, 15, 15, 15, 0] : List ℚ).length :=
  (claim_C2 [0, 15, 15, 15, 15, 15, 0]).2 (0, 6)
    (by norm_num [identify_clusters, CLUSTER_WINDOW_SIZE, CLUSTER_DENSITY_THRESHOLD,
      List.range_succ, cluster_step, window, mean])

/-- C4. The claim asserts the Q&A differential is computed whenever the key
`"Questions and Answers"` holds non-empty text, even without the key `"Q&A"`;
but the guard `if sections and 'Q&A' in sections` makes the fallback
unreachable, so the code returns `0.0` where the claim demands the mean
answer/question difference (25.0 at this input). -/
theorem claim_C4_counterexample :
    (analyze_distribution_patterns zero_sqrt qa_tok_fixture qa_ext_fixture
      empty_sentence_metrics (some qa_sections_fixture) none).qa_density_differential = 0 ∧
    qa_differential_per_claim qa_tok_fixture qa_ext_fixture qa_sections_fixture = 25 ∧
    (0 : ℚ) ≠ 25 := by
  refine ⟨?_, ?_, by norm_num⟩
  · rw [qa_differential_eq]
    simp [qa_analysis, qa_sections_fixture, qa_text_fixture, List.lookup]
  · have hl : qa_sections_fixture.lookup "Questions and Answers" =
        some qa_text_fixture := by decide
    have htok : qa_tok_fixture qa_text_fixture =
        ["Why did revenue grow?", "Revenue grew 5 percent."] := by decide
    have hq : List.filter (fun s => s.data.contains '?')
        ["Why did revenue grow?", "Revenue grew 5 percent."] =
        ["Why did revenue grow?"] := by decide
    have ha : List.filter (fun s => !(s.data.contains '?'))
        ["Why did revenue grow?", "Revenue grew 5 percent."] =
        ["Revenue grew 5 percent."] := by decide
    unfold qa_differential_per_claim
    rw [hl]
    dsimp only
    rw [Option.getD_some, htok, hq, ha]
    rw [if_neg (by decide)]
    norm_num [mean, calculate_sentence_density, qa_ext_fixture]
    decide

/-- C4 (amended): the Q&A analysis runs only when the key `"Q&A"` is present
with non-empty text — when `"Q&A"` is absent all three Q&A fields are 0.0 even
if `"Questions and Answers"` is present (the fallback is dead code); when
`"Q&A"` maps to non-empty text, sentences containing `?` are questions, the
rest answers, and the differential is (mean answer density, 0.0 if no answers)
minus (mean question density, 0.0 if no questions). -/
theorem claim_C4 :
    (∀ (sq : ℚ → ℚ) (tok : String → List String) (ext : String → ℕ × ℕ)
      (m : SentenceDensityMetrics) (sp : Option (List (String × String)))
      (ss : List (String × String)), ss.lookup "Q&A" = none →
      (analyze_distribution_patterns sq tok ext m (some ss) sp).qa_density_differential = 0 ∧
      (analyze_distribution_patterns sq tok ext m (some ss) sp).question_avg_density = 0 ∧
      (analyze_distribution_patterns sq tok ext m (some ss) sp).answer_avg_density = 0) ∧
    (∀ (sq : ℚ → ℚ) (tok : String → List String) (ext : String → ℕ × ℕ)
      (m : SentenceDensityMetrics) (sp : Option (List (String × String)))
      (ss : List (String × String)) (t : String), ss.lookup "Q&A" = some t → t ≠ "" →
      (analyze_distribution_patterns sq tok ext m (some ss) sp).qa_density_differential =
        (if (tok t).filter (fun s => !(s.data.contains '?')) ≠ [] then
          mean (((tok t).filter (fun s => !(s.data.contains '?'))).map
            (calculate_sentence_density ext))
         else 0) -
        (if (tok t).filter (fun s => s.data.contains '?') ≠ [] then
          mean (((tok t).filter (fun s => s.data.contains '?')).map
            (calculate_sentence_density ext))
         else 0)) := by
  constructor
  · intro sq tok ext m sp ss h
    rw [qa_differential_eq, qa_question_eq, qa_answer_eq]
    refine ⟨?_, ?_, ?_⟩ <;> simp [qa_analysis, h]
  · intro sq tok ext m sp ss t h ht
    have hne : ss ≠ [] := by
      intro e
      rw [e] at h
      simp [List.lookup] at h
    rw [qa_differential_eq]
    unfold qa_analysis
    dsimp only
    rw [h]
    simp [hne, ht]

/-- C4 witness: the dead-fallback part applied at the fixture sections. -/
theorem claim_C4_witness :
    (analyze_distribution_patterns zero_sqrt qa_tok_fixture qa_ext_fixture
      empty_sentence_metrics (some qa_sections_fixture) none).qa_density_differential = 0 ∧
    (analyze_distribution_patterns zero_sqrt qa_tok_fixture qa_ext_fixture
      empty_sentence_metrics (some qa_sections_fixture) none).question_avg_density = 0 ∧
    (analyze_distribution_patterns zero_sqrt qa_tok_fixture qa_ext_fixture
      empty_sentence_metrics (some qa_sections_fixture) none).answer_avg_density = 0 :=
  claim_C4.1 zero_sqrt qa_tok_fixture qa_ext_fixture empty_sentence_metrics none
    qa_sections_fixture (by simp [qa_sections_fixture, List.lookup])

/-- C3. The claim asserts that with mean density 0, specificity 0.3, zero
forward-looking density and zero contextualization, `informativeness_score` is
`0.0`.  In fact the specificity component `(0.3/2)·25 = 3.75` survives, so the
score is `3.75`. -/
theorem claim_C3_counterexample :
    (calculate_informativeness empty_sentence_metrics low_specificity_scores
      zero_distribution).informativeness_score = 15/4 ∧ (15/4 : ℚ) ≠ 0 := by
  rw [informativeness_score_eq]
  norm_num [empty_sentence_metrics, low_specificity_scores, min_def]

/-- C3 (amended): with mean numeric density 0, specificity index 0.3,
forward-looking density 0 and contextualization quality 0, the result has
`informativeness_score = 3.75` (the surviving specificity component),
`numeric_avoidance_risk = 70.0` and
`quantitative_disclosure_level = "very_low"`. -/
theorem claim_C3 : ∀ (M : SentenceDensityMetrics) (S : NumericalScores)
    (D : DistributionPattern),
    M.mean_numeric_density = 0 → S.numerical_specificity_index = 3/10 →
    S.forward_looking_density = 0 → S.contextualization_quality_score = 0 →
    (calculate_informativeness M S D).informativeness_score = 15/4 ∧
    (calculate_informativeness M S D).numeric_avoidance_risk = 70 ∧
    (calculate_informativeness M S D).quantitative_disclosure_level = "very_low" := by
  intro M S D h1 h2 h3 h4
  have hs : (calculate_informativeness M S D).informativeness_score = 15/4 := by
    rw [informativeness_score_eq, h1, h2, h3, h4]
    norm_num
  refine ⟨hs, ?_, ?_⟩
  · rw [avoidance_risk_eq, h1]
    norm_num
  · rw [disclosure_level_eq, hs]
    norm_num

/-- C3 witness: the amended statement applied at the fixture inputs. -/
theorem claim_C3_witness :
    (calculate_informativeness empty_sentence_metrics low_specificity_scores
      zero_distribution).informativeness_score = 15/4 ∧
    (calculate_informativeness empty_sentence_metrics low_specificity_scores
      zero_distribution).numeric_avoidance_risk = 70 ∧
    (calculate_informativeness empty_sentence_metrics low_specificity_scores
      zero_distribution).quantitative_disclosure_level = "very_low" :=
  claim_C3 empty_sentence_metrics low_specificity_scores zero_distribution rfl rfl rfl rfl

/-- C5. The claim (and the method's own docstring) bound per-sentence density
by 100, but on the sentence `"5.5 5.5 a"` the external collaborators report 2
numeric tokens against 1 word token — `word_tokenize` keeps `'5.5'` whole and
the `isalnum()` filter then discards it, while the numeric regex matches both
occurrences — so `_calculate_sentence_density` returns `200.0`. -/
theorem claim_C5_bug :
    calculate_sentence_density overfull_ext_fixture "5.5 5.5 a" = 200 ∧
    ¬ calculate_sentence_density overfull_ext_fixture "5.5 5.5 a" ≤ 100 := by
  norm_num [calculate_sentence_density, overfull_ext_fixture]

/-- C6: `informativeness_score` is monotonically non-decreasing in each of
mean numeric density, specificity index, forward-looking density and
contextualization quality, the other inputs held fixed (with no restriction at
or beyond the clamp ceilings). -/
theorem claim_C6 :
    (∀ (M : SentenceDensityMetrics) (S : NumericalScores) (D : DistributionPattern)
      (x y : ℚ), x ≤ y →
      (calculate_informativeness { M with mean_numeric_density := x } S D).informativeness_score ≤
      (calculate_informativeness { M with mean_numeric_density := y } S D).informativeness_score) ∧
    (∀ (M : SentenceDensityMetrics) (S : NumericalScores) (D : DistributionPattern)
      (x y : ℚ), x ≤ y →
      (calculate_informativeness M { S with numerical_specificity_index := x } D).informativeness_score ≤
      (calculate_informativeness M { S with numerical_specificity_index := y } D).informativeness_score) ∧
    (∀ (M : SentenceDensityMetrics) (S : NumericalScores) (D : DistributionPattern)
      (x y : ℚ), x ≤ y →
      (calculate_informativeness M { S with forward_looking_density := x } D).informativeness_score ≤
      (calculate_informativeness M { S with forward_looking_density := y } D).informativeness_score) ∧
    (∀ (M : SentenceDensityMetrics) (S : NumericalScores) (D : DistributionPattern)
      (x y : ℚ), x ≤ y →
      (calculate_informativeness M { S with contextualization_quality_score := x } D).informativeness_score ≤
      (calculate_informativeness M { S with contextualization_quality_score := y } D).informativeness_score) := by
  refine ⟨?_, ?_, ?_, ?_⟩ <;> intro M S D x y hxy <;>
    rw [informativeness_score_eq, informativeness_score_eq] <;> dsimp only
  · have h1 : min (x / 10) 1 ≤ min (y / 10) 1 := min_le_min (by linarith) le_rfl
    have h2 : min (x / 10) 1 * 30 ≤ min (y / 10) 1 * 30 :=
      mul_le_mul_of_nonneg_right h1 (by norm_num)
    linarith
  · linarith
  · have h1 : min (x / 5) 1 ≤ min (y / 5) 1 := min_le_min (by linarith) le_rfl
    have h2 : min (x / 5) 1 * 25 ≤ min (y / 5) 1 * 25 :=
      mul_le_mul_of_nonneg_right h1 (by norm_num)
    linarith
  · linarith

/-- C6 witness: each monotonicity component applied at concrete inputs. -/
theorem claim_C6_witness :
    ((calculate_informativeness { empty_sentence_metrics with mean_numeric_density := 0 }
        low_specificity_scores zero_distribution).informativeness_score ≤
      (calculate_informativeness { empty_sentence_metrics with mean_numeric_density := 5 }
        low_specificity_scores zero_distribution).informativeness_score) ∧
    ((calculate_informativeness empty_sentence_metrics
        { low_specificity_scores with numerical_specificity_index := 0 }
        zero_distribution).informativeness_score ≤
      (calculate_informativeness empty_sentence_metrics
        { low_specificity_scores with numerical_specificity_index := 1 }
        zero_distribution).informativeness_score) ∧
    ((calculate_informativeness empty_sentence_metrics
        { low_specificity_scores with forward_looking_density := 0 }
        zero_distribution).informativeness_score ≤
      (calculate_informativeness empty_sentence_metrics
        { low_specificity_scores with forward_looking_density := 1 }
        zero_distribution).informativeness_score) ∧
    ((calculate_informativeness empty_sentence_metrics
        { low_specificity_scores with contextualization_quality_score := 0 }
        zero_distribution).informativeness_score ≤
      (calculate_informativeness empty_sentence_metrics
        { low_specificity_scores with contextualization_quality_score := 1 }
        zero_distribution).informativeness_score) :=
  ⟨claim_C6.1 empty_sentence_metrics low_specificity_scores zero_distribution 0 5 (by norm_num),
   claim_C6.2.1 empty_sentence_metrics low_specificity_scores zero_distribution 0 1 (by norm_num),
   claim_C6.2.2.1 empty_sentence_metrics low_specificity_scores zero_distribution 0 1 (by norm_num),
   claim_C6.2.2.2 empty_sentence_metrics low_specificity_scores zero_distribution 0 1 (by norm_num)⟩

/-- C7. The claim asserts the forecast relevance sum is clamped into `[0,100]`
and never negative; the code applies only `min(·, 100)`, so a malformed
negative forward-to-backward ratio drives the score to `-20`. -/
theorem claim_C7_counterexample :
    (calculate_informativeness empty_sentence_metrics negative_ratio_scores
      zero_distribution).forecast_relevance_score = -20 ∧
    ¬ (0 : ℚ) ≤ -20 := by
  rw [forecast_score_eq]
  norm_num [negative_ratio_scores, min_def]

/-- C7 (amended): `forecast_relevance_score` equals the component sum clamped
from above at 100 only; it is never above 100, and it is non-negative whenever
the externally supplied scores are non-negative — but no lower clamp exists for
malformed negative inputs. -/
theorem claim_C7 : ∀ (M : SentenceDensityMetrics) (S : NumericalScores)
    (D : DistributionPattern),
    (calculate_informativeness M S D).forecast_relevance_score =
      min (S.forward_looking_density * 40 + (S.forward_to_backward_ratio / 3) * 20 +
        (S.numerical_specificity_index / 2) * 25 +
        S.contextualization_quality_score * 20) 100 ∧
    (calculate_informativeness M S D).forecast_relevance_score ≤ 100 ∧
    (0 ≤ S.forward_looking_density → 0 ≤ S.forward_to_backward_ratio →
     0 ≤ S.numerical_specificity_index → 0 ≤ S.contextualization_quality_score →
     0 ≤ (calculate_informativeness M S D).forecast_relevance_score) := by
  intro M S D
  refine ⟨forecast_score_eq M S D, ?_, ?_⟩
  · rw [forecast_score_eq]
    exact min_le_right _ _
  · intro h1 h2 h3 h4
    rw [forecast_score_eq]
    refine le_min ?_ (by norm_num)
    have t1 : 0 ≤ S.forward_looking_density * 40 := by linarith
    have t2 : 0 ≤ (S.forward_to_backward_ratio / 3) * 20 := by positivity
    have t3 : 0 ≤ (S.numerical_specificity_index / 2) * 25 := by positivity
    have t4 : 0 ≤ S.contextualization_quality_score * 20 := by linarith
    linarith

/-- C7 witness: the amended statement applied at the fixture inputs. -/
theorem claim_C7_witness :
    0 ≤ (calculate_informativeness empty_sentence_metrics low_specificity_scores
      zero_distribution).forecast_relevance_score :=
  (claim_C7 empty_sentence_metrics low_specificity_scores zero_distribution).2.2
    (by norm_num [low_specificity_scores]) (by norm_num [low_specificity_scores])
    (by norm_num [low_specificity_scores]) (by norm_num [low_specificity_scores])

/-- C8: on empty input (the segmenter yields no sentences),
`analyze_sentence_density` returns the all-zero sentinel record: every count 0,
every statistic 0.0, both proportions 0.0, and empty
`top_dense_sentences` / `density_by_position`. -/
theorem claim_C8 : ∀ (sq : ℚ → ℚ) (tok : String → List String)
    (ext : String → ℕ × ℕ) (text : String), tok text = [] →
    analyze_sentence_density sq tok ext text =
      ⟨0, 0, 0, 0, 0, 0, 0, 0, 0, 0, 0, 0, 0, 0, [], []⟩ := by
  intro sq tok ext text h
  unfold analyze_sentence_density
  rw [h]
  rfl

/-- C8 witness: the empty-input case at concrete oracles. -/
theorem claim_C8_witness :
    analyze_sentence_density zero_sqrt (fun _ => []) (fun _ => (0, 0)) "" =
      ⟨0, 0, 0, 0, 0, 0, 0, 0, 0, 0, 0, 0, 0, 0, [], []⟩ :=
  claim_C8 zero_sqrt (fun _ => []) (fun _ => (0, 0)) "" rfl

/-- C9: the pipeline is deterministic and stateless — a run leaves the analyzer
instance unchanged, the outputs do not depend on which instance runs them (an
instance carries no state), and two runs on identical inputs produce identical
output records and heatmap. -/
theorem claim_C9 : ∀ (self₁ self₂ : SentenceLevelDensityAnalyzer) (sq : ℚ → ℚ)
    (tok : String → List String) (ext : String → ℕ × ℕ) (text : String)
    (sections speakers : Option (List (String × String))) (S : NumericalScores),
    (run_pipelineM self₁ sq tok ext text sections speakers S).1 = self₁ ∧
    (run_pipelineM self₁ sq tok ext text sections speakers S).2 =
      (run_pipelineM self₂ sq tok ext text sections speakers S).2 ∧
    run_pipeline sq tok ext text sections speakers S =
      run_pipeline sq tok ext text sections speakers S :=
  fun _ _ _ _ _ _ _ _ _ => ⟨rfl, rfl, rfl⟩

/-- C10: `_classify_pattern` always returns a confidence in `(0.3, 1]`: the
fixed branches give 0.9, 0.8 or 0.6, and the front-loaded and back-loaded
branches give `min(diff/10, 1)` under a guard `diff > 3`. -/
theorem claim_C10 : ∀ (sq : ℚ → ℚ) (beginning middle endv : ℚ)
    (all_densities : List ℚ),
    3/10 < (classify_pattern sq beginning middle endv all_densities).2 ∧
    (classify_pattern sq beginning middle endv all_densities).2 ≤ 1 := by
  intro sq b m e ds
  unfold classify_pattern
  dsimp only
  split_ifs <;>
    first
      | ((constructor <;> norm_num) <;> done)
      | (rename_i h
         exact ⟨lt_min (by linarith [h.1]) (by norm_num), min_le_right _ _⟩)

end SentenceDensity
